import Mathlib

set_option maxHeartbeats 1000000

/-!
Shallow embedding of the transfer protocol and cross-realm promise bridge of
`src/module/transferable.cc` (isolated-vm).

The embedding follows the source file: `TransferablePromiseStateStruct` becomes
`TransferablePromiseState`, `TransferablePromiseHolder::Save` becomes `Save`
(the lock-protected critical section is modelled as one atomic state
transformation, and the loop that schedules a `ResolveTask` per drained waiter
is modelled by the returned task list), the holder's destructor becomes
`Destructor`, the `Resolved`/`Rejected` continuations become `RunTrigger`,
`TransferablePromise::TransferIn` becomes `TransferIn`, and the dispatch
functions `Transferable::OptionalTransferOut` / `Transferable::TransferOut` /
`TransferableOptions::ParseOptions` keep their names.  V8 values are modelled
by the inductive `Value`; collaborators that live outside this source file
(`ExternalCopy::Copy`, `ExternalCopy::CopyIfPrimitive`,
`ExternalCopy::CopyIfPrimitiveOrError`, `TransferableHandle::TransferOut`) are
modelled from the spec and marked as such in their doc comments.
-/

/-- Models `v8::Local<v8::Value>` as seen by this file: realm-independent
primitives, a structurally-copyable error, an object wrapping a native
`TransferableHandle` (identified by a `Nat` tag), a plain object with no
native transfer capability, and promise-shaped values in each of the three
V8 promise states (`promise->State()` / `promise->Result()`). -/
inductive Value where
  | boolean : Bool → Value
  | number : Int → Value
  | str : String → Value
  | nullValue : Value
  | undefined : Value
  | errorValue : String → Value
  | nativeObject : Nat → Value
  | plainObject : Value
  | promisePending : Value
  | promiseFulfilled : Value → Value
  | promiseRejected : Value → Value
  deriving DecidableEq

/-- `value->IsPromise()`. -/
def Value.IsPromise : Value → Bool
  | .promisePending => true
  | .promiseFulfilled _ => true
  | .promiseRejected _ => true
  | _ => false

/-- Models the `Transferable::Options::Type` enum (`None`, `Copy`,
`ExternalCopy`, `Reference`). -/
inductive TransferType where
  | None
  | Copy
  | ExternalCopy
  | Reference
  deriving DecidableEq

/-- Models `Transferable::Options` (`detail::TransferableOptions`):
`type`, `fallback`, and the `promise` flag. -/
structure TransferableOptions where
  type : TransferType
  fallback : TransferType
  promise : Bool
  deriving DecidableEq

/-- Models the closed set of `Transferable` variants this file produces:
`externalCopy v` is the result of `ExternalCopy::Copy(v)` (a structural copy),
`externalCopyError msg` is an `ExternalCopyError`, `externalCopyTransferable`
is `ExternalCopyHandle::ExternalCopyTransferable` wrapping an `ExternalCopy`,
`referenceHandleTransferable` is a `ReferenceHandleTransferable`,
`nativeTransferable n` is the result of a wrapped `TransferableHandle`'s own
`TransferOut()`, and `promiseTransferable` is a `TransferablePromise`, carrying
a snapshot of its shared state (value, waiting queue, did_throw, resolved). -/
inductive Transferable where
  | externalCopy : Value → Transferable
  | externalCopyError : String → Transferable
  | externalCopyTransferable : Transferable → Transferable
  | referenceHandleTransferable : Value → Transferable
  | nativeTransferable : Nat → Transferable
  | promiseTransferable : Option Transferable → List Nat → Bool → Bool → Transferable

/-- Whether a `Transferable` is a `TransferablePromise`. -/
def Transferable.IsPromiseTransferable : Transferable → Bool
  | .promiseTransferable _ _ _ _ => true
  | _ => false

/-- Models `TransferablePromiseStateStruct`: the shared state of the promise
bridge.  Waiters (`RemoteHandle<Promise::Resolver>`) are identified by `Nat`
resolver tags. -/
structure TransferablePromiseState where
  value : Option Transferable
  waiting : List Nat
  did_throw : Bool
  resolved : Bool

/-- A fresh `TransferablePromiseStateStruct` (default member initializers:
null value, empty deque, `did_throw = false`, `resolved = false`). -/
def InitialState : TransferablePromiseState :=
  { value := none, waiting := [], did_throw := false, resolved := false }

/-- The `TransferablePromise` transferable built over a shared state. -/
def Transferable.ofState (s : TransferablePromiseState) : Transferable :=
  .promiseTransferable s.value s.waiting s.did_throw s.resolved

/-- Models `TransferablePromiseHolder::ResolveTask`: resolver handle, shared
settled value, and the rejection flag captured at scheduling time. -/
structure ResolveTask where
  resolver : Nat
  value : Option Transferable
  did_throw : Bool

/-- The result of one run of `TransferablePromiseHolder::Save`: the updated
shared state and the `ResolveTask`s scheduled for the drained waiters, in
order. -/
structure SaveResult where
  state : TransferablePromiseState
  tasks : List ResolveTask

/-- Modelled from the spec: the realm-independent primitives (boolean, number,
string, null/undefined) together with structurally-copyable errors — the
values accepted by the cheap fast copy path. -/
def IsPrimitiveOrError : Value → Bool
  | .boolean _ => true
  | .number _ => true
  | .str _ => true
  | .nullValue => true
  | .undefined => true
  | .errorValue _ => true
  | _ => false

/-- Modelled from the spec: `ExternalCopy::Copy` — the deep-copy codec
collaborator `copy(value) -> Transferable`. -/
def ExternalCopyFull (v : Value) : Transferable :=
  .externalCopy v

/-- Modelled from the spec: `ExternalCopy::CopyIfPrimitive` — the collaborator
`copyIfPrimitive(value) -> optional Transferable`, succeeding exactly on the
fast-path values of `IsPrimitiveOrError`. -/
def CopyIfPrimitive (v : Value) : Option Transferable :=
  if IsPrimitiveOrError v then some (.externalCopy v) else none

/-- Modelled from the spec: `ExternalCopy::CopyIfPrimitiveOrError` — the
collaborator `copyIfPrimitiveOrError(value) -> Transferable`, which always
succeeds, normalizing non-primitives to a generic error marker. -/
def CopyIfPrimitiveOrError (v : Value) : Transferable :=
  if IsPrimitiveOrError v then .externalCopy v else .externalCopyError "uncopyable rejection value"

/-- Models `ClassHandle::Unwrap<TransferableHandle>(value)` guarded by
`value->IsObject()`: yields the wrapped native handle's tag when `value` is an
object wrapping a `TransferableHandle`, and `none` otherwise. -/
def UnwrapTransferableHandle : Value → Option Nat
  | .nativeObject n => some n
  | _ => none

/-- Modelled from the spec: the native transfer capability
`selfTransferOut() -> Transferable` of a wrapped `TransferableHandle`. -/
def NativeTransferOut (n : Nat) : Transferable :=
  .nativeTransferable n

/-- Models the `TransferWithType` lambda inside
`Transferable::OptionalTransferOut`: `None` yields nothing, `Copy` yields
`ExternalCopy::Copy(value)`, `ExternalCopy` wraps that copy in an
`ExternalCopyHandle::ExternalCopyTransferable`, `Reference` yields a
`ReferenceHandleTransferable`. -/
def TransferWithType (v : Value) : TransferType → Option Transferable
  | .None => none
  | .Copy => some (ExternalCopyFull v)
  | .ExternalCopy => some (.externalCopyTransferable (ExternalCopyFull v))
  | .Reference => some (.referenceHandleTransferable v)

/-- The non-promise dispatch of `Transferable::OptionalTransferOut` (the
`switch (options.type)` after the `options.promise` branch): with type `None`,
first try the native transfer capability, then the primitive fast path, then
the fallback type; with any explicit type, dispatch on it directly. -/
def OptionalTransferOutNP (v : Value) (o : TransferableOptions) : Option Transferable :=
  match o.type with
  | .None =>
    match UnwrapTransferableHandle v with
    | some n => some (NativeTransferOut n)
    | none =>
      match CopyIfPrimitive v with
      | some t => some t
      | none => TransferWithType v o.fallback
  | t => TransferWithType v t

/-- The non-promise part of `Transferable::TransferOut`: throws
`RuntimeTypeError("A non-transferable value was passed")` when the optional
form yields nothing. -/
def TransferOutNP (v : Value) (o : TransferableOptions) : Except String Transferable :=
  match OptionalTransferOutNP v o with
  | some t => .ok t
  | none => .error "A non-transferable value was passed"

/-- Models `TransferablePromiseHolder::Save(did_throw, callback)`, the
lock-protected settlement procedure.  The callback is modelled by its result:
`.ok t` when it returns a transferable, `.error msg` when it throws and
`FunctorRunners::RunCatchExternal` hands the catch block an externalized copy
of the error.  If the state is not yet resolved, mark it resolved and either
store the callback's value with the given rejection flag, or store the caught
error and force the flag to `true`.  Then read the stored value, drain the
waiter queue, and schedule one `ResolveTask` per drained waiter (in queue
order) carrying the stored value and the local `did_throw`. -/
def Save (s : TransferablePromiseState) (did_throw : Bool)
    (callback : Except String Transferable) : SaveResult :=
  let step : TransferablePromiseState × Bool :=
    if s.resolved then (s, did_throw)
    else
      match callback with
      | .ok v =>
        ({ s with resolved := true, value := some v, did_throw := did_throw }, did_throw)
      | .error e =>
        ({ s with resolved := true, value := some (.externalCopyError e), did_throw := true }, true)
  { state := { step.1 with waiting := [] },
    tasks := step.1.waiting.map (fun r => { resolver := r, value := step.1.value, did_throw := step.2 }) }

/-- Models `~TransferablePromiseHolder`: `Save(true, callback)` where the
callback returns `ExternalCopyError(Error, "Promise was abandoned")`. -/
def Destructor (s : TransferablePromiseState) : SaveResult :=
  Save s true (.ok (.externalCopyError "Promise was abandoned"))

/-- The callback passed to `Save` by `TransferablePromiseHolder::Resolved`:
`Transferable::TransferOut(value, transfer_options)`, which throws
`RuntimeTypeError("A non-transferable value was passed")` exactly when the
optional dispatch yields nothing.  The holder's `transfer_options` always have
`promise = false` (forced by `TransferablePromise::MakeHolder`), so the
dispatch is the non-promise dispatch. -/
def ResolvedCallback (v : Value) (o : TransferableOptions) : Except String Transferable :=
  TransferOutNP v o

/-- The settlement triggers feeding `Save`: the fulfillment continuation
(`Resolved`), the rejection continuation (`Rejected`), and holder destruction
(`~TransferablePromiseHolder`). -/
inductive Trigger where
  | resolvedWith : Value → Trigger
  | rejectedWith : Value → Trigger
  | destructed : Trigger

/-- Runs one settlement trigger against the shared state, with the holder's
stored `transfer_options`: `Resolved` is `Save(false, TransferOut(value,
options))`, `Rejected` is `Save(true, CopyIfPrimitiveOrError(value))`, and
destruction is `Destructor`. -/
def RunTrigger (o : TransferableOptions) (s : TransferablePromiseState) :
    Trigger → SaveResult
  | .resolvedWith v => Save s false (ResolvedCallback v o)
  | .rejectedWith v => Save s true (.ok (CopyIfPrimitiveOrError v))
  | .destructed => Destructor s

/-- Models `TransferablePromiseHolder::Accept(promise)` applied to a fresh
shared state: if the originating promise is already fulfilled or rejected, the
matching continuation is invoked synchronously with `promise->Result()`;
if it is pending, both continuations are installed and the state stays
untouched. -/
def AcceptState (promise : Value) (o : TransferableOptions) : TransferablePromiseState :=
  match promise with
  | .promiseFulfilled v => (RunTrigger o InitialState (.resolvedWith v)).state
  | .promiseRejected v => (RunTrigger o InitialState (.rejectedWith v)).state
  | _ => InitialState

/-- Models the value-constructor `TransferablePromise(value, options)`: a
fresh shared state immediately settled by invoking `Resolved` on the new
holder with `value`. -/
def ImmediateState (v : Value) (o : TransferableOptions) : TransferablePromiseState :=
  (RunTrigger o InitialState (.resolvedWith v)).state

/-- Models `TransferablePromise::MakeHolder`: the holder's options are the
caller's with `promise` forced to `false`. -/
def MakeHolderOptions (o : TransferableOptions) : TransferableOptions :=
  { o with promise := false }

/-- Models `Transferable::OptionalTransferOut(value, options)`: with the
`promise` option set, produce a `TransferablePromise` (attaching a holder to a
promise-shaped value, or immediately settling with any other value) before and
instead of the type dispatch; otherwise run the non-promise dispatch. -/
def OptionalTransferOut (v : Value) (o : TransferableOptions) : Option Transferable :=
  if o.promise then
    if v.IsPromise then
      some (Transferable.ofState (AcceptState v (MakeHolderOptions o)))
    else
      some (Transferable.ofState (ImmediateState v (MakeHolderOptions o)))
  else OptionalTransferOutNP v o

/-- Models `Transferable::TransferOut(value, options)`: the strict entry
point, throwing `RuntimeTypeError("A non-transferable value was passed")` when
`OptionalTransferOut` yields nothing. -/
def TransferOut (v : Value) (o : TransferableOptions) : Except String Transferable :=
  match OptionalTransferOut v o with
  | some t => .ok t
  | none => .error "A non-transferable value was passed"

/-- The outcome of `TransferablePromise::TransferIn` for the fresh resolver:
either immediately settled (with the stored value and rejection flag) or left
as a pending promise with the resolver parked in the waiter queue. -/
inductive TransferInResult where
  | settled : Option Transferable → Bool → TransferInResult
  | pendingPromise : TransferInResult

/-- Models `TransferablePromise::TransferIn` acting on the shared state, with
the freshly created resolver identified by `resolver`: under the lock, if the
state is resolved, immediately reject or resolve the resolver from the stored
value per `did_throw`; otherwise append the resolver to the waiter queue. -/
def TransferIn (s : TransferablePromiseState) (resolver : Nat) :
    TransferablePromiseState × TransferInResult :=
  if s.resolved then (s, .settled s.value s.did_throw)
  else ({ s with waiting := s.waiting ++ [resolver] }, .pendingPromise)

/-- An observable event on one bridge: a settlement trigger firing in the
source realm, or a destination realm registering a waiter via `TransferIn`. -/
inductive Event where
  | fire : Trigger → Event
  | register : Nat → Event

/-- One event step: a trigger runs `Save` (via `RunTrigger`) and its scheduled
`ResolveTask`s are recorded; a registration on a resolved state records the
immediate delivery `TransferIn` performs, while on an unresolved state it
parks the resolver. -/
def StepEvent (o : TransferableOptions) (s : TransferablePromiseState) :
    Event → TransferablePromiseState × List ResolveTask
  | .fire t =>
    let r := RunTrigger o s t
    (r.state, r.tasks)
  | .register n =>
    if s.resolved then
      (s, [{ resolver := n, value := s.value, did_throw := s.did_throw }])
    else
      ({ s with waiting := s.waiting ++ [n] }, [])

/-- Runs a sequence of events, accumulating every delivered outcome (scheduled
`ResolveTask`s and immediate settlements alike). -/
def RunEvents (o : TransferableOptions) (s : TransferablePromiseState) :
    List Event → TransferablePromiseState × List ResolveTask
  | [] => (s, [])
  | e :: es =>
    let p := StepEvent o s e
    let q := RunEvents o p.1 es
    (q.1, p.2 ++ q.2)

/-- How many deliveries in a run went to resolver `n`. -/
def CountResolver (n : Nat) (ds : List ResolveTask) : Nat :=
  ds.countP (fun d => d.resolver == n)

/-- How many entries of the waiter queue are resolver `n`. -/
def CountWait (n : Nat) (w : List Nat) : Nat :=
  w.countP (fun m => m == n)

/-- How many times resolver `n` registers in an event sequence. -/
def RegisterCount (n : Nat) (es : List Event) : Nat :=
  es.countP (fun e => match e with | .register m => m == n | .fire _ => false)

/-- The bridge invariant: a resolved state has an empty waiter queue. -/
def BridgeInv (s : TransferablePromiseState) : Prop :=
  s.resolved = true → s.waiting = []

/-- Models the raw options bag read by `TransferableOptions::ParseOptions`:
the four boolean flags `ReadOption<bool>` extracts. -/
structure RawTransferOptions where
  copy : Bool
  externalCopy : Bool
  reference : Bool
  promise : Bool
  deriving DecidableEq

/-- How many of the three kind flags are set. -/
def NumFlagsSet (raw : RawTransferOptions) : Nat :=
  (cond raw.copy 1 0) + (cond raw.externalCopy 1 0) + (cond raw.reference 1 0)

/-- Models `TransferableOptions::ParseOptions`: throws a `RuntimeTypeError`
when more than one of `copy`/`externalCopy`/`reference` is truthy; otherwise
sets `type` from whichever flag is set (left `None` when none is), keeps the
given fallback, and reads the `promise` flag. -/
def ParseOptions (raw : RawTransferOptions) (fallback : TransferType) :
    Except String TransferableOptions :=
  if (raw.copy && raw.externalCopy) || (raw.copy && raw.reference)
      || (raw.externalCopy && raw.reference) then
    .error "Only one of `copy`, `externalCopy`, or `reference` may be set"
  else
    .ok { type := if raw.copy then .Copy
                  else if raw.externalCopy then .ExternalCopy
                  else if raw.reference then .Reference
                  else .None,
          fallback := fallback,
          promise := raw.promise }

/-! ## Basic facts about the settlement procedure `Save` -/

/-- After any run of `Save`, the shared state is resolved. -/
theorem Save_state_resolved (s : TransferablePromiseState) (dt : Bool)
    (cb : Except String Transferable) : (Save s dt cb).state.resolved = true := by
  rcases s with ⟨val, w, dth, res⟩
  cases res <;> cases cb <;> simp [Save]

/-- After any run of `Save`, the waiter queue is drained. -/
theorem Save_state_waiting (s : TransferablePromiseState) (dt : Bool)
    (cb : Except String Transferable) : (Save s dt cb).state.waiting = [] := by
  rcases s with ⟨val, w, dth, res⟩
  cases res <;> cases cb <;> simp [Save]

/-- A run of `Save` on an already-resolved state leaves the stored value and
rejection flag unchanged. -/
theorem Save_frozen (s : TransferablePromiseState) (dt : Bool)
    (cb : Except String Transferable) (h : s.resolved = true) :
    (Save s dt cb).state.value = s.value ∧ (Save s dt cb).state.did_throw = s.did_throw := by
  rcases s with ⟨val, w, dth, res⟩
  simp only at h
  subst h
  cases cb <;> simp [Save]

/-- The scheduled tasks target exactly the waiters of the incoming queue, in
queue order. -/
theorem Save_tasks_resolvers (s : TransferablePromiseState) (dt : Bool)
    (cb : Except String Transferable) :
    (Save s dt cb).tasks.map (fun d => d.resolver) = s.waiting := by
  rcases s with ⟨val, w, dth, res⟩
  cases res <;> cases cb <;> simp [Save, Function.comp_def]

/-- On a not-yet-resolved state, every task scheduled by `Save` carries the
value and rejection flag just written into the state. -/
theorem Save_tasks_outcome (s : TransferablePromiseState) (dt : Bool)
    (cb : Except String Transferable) (h : s.resolved = false) :
    ∀ d ∈ (Save s dt cb).tasks,
      d.value = (Save s dt cb).state.value ∧ d.did_throw = (Save s dt cb).state.did_throw := by
  rcases s with ⟨val, w, dth, res⟩
  simp only at h
  subst h
  cases cb <;> simp [Save]

/-- On a not-yet-resolved state, `Save` with a successful callback stores the
callback's value with the given rejection flag. -/
theorem Save_writes_ok (s : TransferablePromiseState) (dt : Bool) (t : Transferable)
    (h : s.resolved = false) :
    (Save s dt (.ok t)).state.value = some t ∧
    (Save s dt (.ok t)).state.did_throw = dt := by
  rcases s with ⟨val, w, dth, res⟩
  simp only at h
  subst h
  simp [Save]

/-- On a not-yet-resolved state, `Save` with a throwing callback captures the
externalized error as the stored value and forces the rejection flag. -/
theorem Save_writes_error (s : TransferablePromiseState) (dt : Bool) (e : String)
    (h : s.resolved = false) :
    (Save s dt (.error e)).state.value = some (.externalCopyError e) ∧
    (Save s dt (.error e)).state.did_throw = true := by
  rcases s with ⟨val, w, dth, res⟩
  simp only at h
  subst h
  simp [Save]

/-- When the waiter queue is already empty, `Save` schedules no task. -/
theorem Save_tasks_nil (s : TransferablePromiseState) (dt : Bool)
    (cb : Except String Transferable) (h : s.waiting = []) : (Save s dt cb).tasks = [] := by
  rcases s with ⟨val, w, dth, res⟩
  simp only at h
  subst h
  cases res <;> cases cb <;> simp [Save]

/-- Every settlement trigger is one run of `Save`. -/
theorem RunTrigger_eq_Save (o : TransferableOptions) (s : TransferablePromiseState)
    (t : Trigger) : ∃ dt cb, RunTrigger o s t = Save s dt cb := by
  cases t with
  | resolvedWith v => exact ⟨false, ResolvedCallback v o, rfl⟩
  | rejectedWith v => exact ⟨true, .ok (CopyIfPrimitiveOrError v), rfl⟩
  | destructed => exact ⟨true, .ok (.externalCopyError "Promise was abandoned"), rfl⟩

/-! ## Counting lemmas -/

/-- Counting deliveries over the task list built from a waiter queue counts
the queue. -/
theorem CountResolver_map (n : Nat) (w : List Nat) (val : Option Transferable) (dt : Bool) :
    CountResolver n (w.map (fun r => { resolver := r, value := val, did_throw := dt }))
      = CountWait n w := by
  induction w with
  | nil => rfl
  | cons a l ih =>
    simp only [List.map_cons, CountResolver, CountWait, List.countP_cons] at ih ⊢
    simp [ih]

/-- Deliveries counted over a concatenation split. -/
theorem CountResolver_append (n : Nat) (a b : List ResolveTask) :
    CountResolver n (a ++ b) = CountResolver n a + CountResolver n b := by
  simp [CountResolver, List.countP_append]

/-- Registrations counted over a cons split. -/
theorem RegisterCount_cons (n : Nat) (e : Event) (es : List Event) :
    RegisterCount n (e :: es) = RegisterCount n [e] + RegisterCount n es := by
  simp only [RegisterCount, List.countP_cons, List.countP_nil]
  omega

/-- `Save` delivers exactly the incoming waiter queue. -/
theorem Save_count (s : TransferablePromiseState) (dt : Bool)
    (cb : Except String Transferable) (n : Nat) :
    CountResolver n (Save s dt cb).tasks = CountWait n s.waiting := by
  rcases s with ⟨val, w, dth, res⟩
  cases res <;> cases cb <;> simp [Save, CountResolver_map]

/-! ## The event-step machine -/

/-- Unfolding `RunEvents` on a cons, state component. -/
theorem RunEvents_cons_fst (o : TransferableOptions) (s : TransferablePromiseState)
    (e : Event) (es : List Event) :
    (RunEvents o s (e :: es)).1 = (RunEvents o (StepEvent o s e).1 es).1 := rfl

/-- Unfolding `RunEvents` on a cons, delivery component. -/
theorem RunEvents_cons_snd (o : TransferableOptions) (s : TransferablePromiseState)
    (e : Event) (es : List Event) :
    (RunEvents o s (e :: es)).2
      = (StepEvent o s e).2 ++ (RunEvents o (StepEvent o s e).1 es).2 := rfl

/-- One event step preserves the conserved quantity: deliveries made plus
waiters still queued equals waiters previously queued plus registrations. -/
theorem StepEvent_conservation (o : TransferableOptions) (s : TransferablePromiseState)
    (e : Event) (n : Nat) :
    CountResolver n (StepEvent o s e).2 + CountWait n (StepEvent o s e).1.waiting
      = CountWait n s.waiting + RegisterCount n [e] := by
  cases e with
  | fire t =>
    obtain ⟨dt, cb, heq⟩ := RunTrigger_eq_Save o s t
    simp [StepEvent, heq, Save_count, Save_state_waiting, CountWait, RegisterCount]
  | register m =>
    by_cases hr : s.resolved = true
    · simp [StepEvent, hr, CountResolver, RegisterCount, List.countP_cons]
      omega
    · simp only [StepEvent, hr, if_false, Bool.false_eq_true]
      simp [CountResolver, CountWait, RegisterCount, List.countP_append, List.countP_cons]

/-- One event step preserves the bridge invariant. -/
theorem StepEvent_inv (o : TransferableOptions) (s : TransferablePromiseState)
    (e : Event) (h : BridgeInv s) : BridgeInv (StepEvent o s e).1 := by
  cases e with
  | fire t =>
    obtain ⟨dt, cb, heq⟩ := RunTrigger_eq_Save o s t
    intro _
    simp [StepEvent, heq, Save_state_waiting]
  | register m =>
    by_cases hr : s.resolved = true
    · simpa [StepEvent, hr] using h
    · intro hcontra
      simp only [StepEvent, hr, if_false, Bool.false_eq_true] at hcontra

/-- Once the state is resolved, an event step keeps it resolved and leaves the
stored value and rejection flag untouched. -/
theorem StepEvent_mono (o : TransferableOptions) (s : TransferablePromiseState)
    (e : Event) (h : s.resolved = true) :
    (StepEvent o s e).1.resolved = true ∧
    (StepEvent o s e).1.value = s.value ∧
    (StepEvent o s e).1.did_throw = s.did_throw := by
  cases e with
  | fire t =>
    obtain ⟨dt, cb, heq⟩ := RunTrigger_eq_Save o s t
    obtain ⟨h1, h2⟩ := Save_frozen s dt cb h
    exact ⟨by simp [StepEvent, heq, Save_state_resolved],
      by simpa [StepEvent, heq] using h1, by simpa [StepEvent, heq] using h2⟩
  | register m => simp [StepEvent, h]

/-- Any delivery made by one event step carries the post-step state's value
and rejection flag, and the post-step state is resolved (assuming the bridge
invariant). -/
theorem StepEvent_delivery (o : TransferableOptions) (s : TransferablePromiseState)
    (e : Event) (hinv : BridgeInv s) :
    ∀ d ∈ (StepEvent o s e).2,
      d.value = (StepEvent o s e).1.value ∧ d.did_throw = (StepEvent o s e).1.did_throw ∧
      (StepEvent o s e).1.resolved = true := by
  cases e with
  | fire t =>
    obtain ⟨dt, cb, heq⟩ := RunTrigger_eq_Save o s t
    intro d hd
    by_cases hr : s.resolved = true
    · exfalso
      have hnil : (Save s dt cb).tasks = [] := Save_tasks_nil s dt cb (hinv hr)
      simp [StepEvent, heq, hnil] at hd
    · have hr2 : s.resolved = false := by
        cases hres : s.resolved
        · rfl
        · exact absurd hres hr
      have h1 := Save_tasks_outcome s dt cb hr2 d (by simpa [StepEvent, heq] using hd)
      exact ⟨by simpa [StepEvent, heq] using h1.1, by simpa [StepEvent, heq] using h1.2,
        by simp [StepEvent, heq, Save_state_resolved]⟩
  | register m =>
    intro d hd
    by_cases hr : s.resolved = true
    · simp only [StepEvent, hr, if_true, List.mem_singleton] at hd
      subst hd
      simp [StepEvent, hr]
    · simp [StepEvent, hr] at hd

/-- Once the state is resolved, a whole event run keeps it resolved and leaves
the stored value and rejection flag untouched. -/
theorem RunEvents_mono (o : TransferableOptions) (es : List Event) :
    ∀ s : TransferablePromiseState, s.resolved = true →
    (RunEvents o s es).1.resolved = true ∧
    (RunEvents o s es).1.value = s.value ∧
    (RunEvents o s es).1.did_throw = s.did_throw := by
  induction es with
  | nil => intro s h; exact ⟨h, rfl, rfl⟩
  | cons e es ih =>
    intro s h
    obtain ⟨h1, h2, h3⟩ := StepEvent_mono o s e h
    obtain ⟨g1, g2, g3⟩ := ih (StepEvent o s e).1 h1
    rw [RunEvents_cons_fst]
    exact ⟨g1, by rw [g2, h2], by rw [g3, h3]⟩

/-- A whole event run preserves the bridge invariant. -/
theorem RunEvents_inv (o : TransferableOptions) (es : List Event) :
    ∀ s : TransferablePromiseState, BridgeInv s → BridgeInv (RunEvents o s es).1 := by
  induction es with
  | nil => intro s h; exact h
  | cons e es ih =>
    intro s h
    rw [RunEvents_cons_fst]
    exact ih _ (StepEvent_inv o s e h)

/-- Conservation over a whole run: deliveries to resolver `n` plus its
remaining queue entries equal its initial queue entries plus its
registrations. -/
theorem RunEvents_conservation (o : TransferableOptions) (n : Nat) (es : List Event) :
    ∀ s : TransferablePromiseState,
    CountResolver n (RunEvents o s es).2 + CountWait n (RunEvents o s es).1.waiting
      = CountWait n s.waiting + RegisterCount n es := by
  induction es with
  | nil => intro s; simp [RunEvents, CountResolver, RegisterCount]
  | cons e es ih =>
    intro s
    have hstep := StepEvent_conservation o s e n
    have hrest := ih (StepEvent o s e).1
    rw [RunEvents_cons_fst, RunEvents_cons_snd, CountResolver_append, RegisterCount_cons]
    omega

/-- Every delivery of a run carries the run's final stored value and rejection
flag (assuming the bridge invariant initially). -/
theorem RunEvents_outcomes (o : TransferableOptions) (es : List Event) :
    ∀ s : TransferablePromiseState, BridgeInv s →
    ∀ d ∈ (RunEvents o s es).2,
      d.value = (RunEvents o s es).1.value ∧ d.did_throw = (RunEvents o s es).1.did_throw := by
  induction es with
  | nil => intro s _ d hd; simp [RunEvents] at hd
  | cons e es ih =>
    intro s hinv d hd
    rw [RunEvents_cons_snd] at hd
    rw [RunEvents_cons_fst]
    rcases List.mem_append.1 hd with hd1 | hd2
    · obtain ⟨hv, ht, hres⟩ := StepEvent_delivery o s e hinv d hd1
      obtain ⟨g1, g2, g3⟩ := RunEvents_mono o es (StepEvent o s e).1 hres
      exact ⟨by rw [hv, g2], by rw [ht, g3]⟩
    · exact ih _ (StepEvent_inv o s e hinv) d hd2

/-! ## Claim theorems -/

/-- C1: the promise bridge's shared state is settled exactly once.  For every
sequence of settlement triggers and waiter registrations run against a fresh
bridge, if a resolver registers exactly once and the bridge ends resolved,
that resolver is delivered exactly one outcome; every delivered outcome equals
the final stored value and rejection flag; and any further invocation of the
settlement procedure leaves the resolved flag `true` and the stored value and
rejection flag unchanged. -/
theorem C1_single_settlement (o : TransferableOptions) (n : Nat) (es : List Event)
    (hreg : RegisterCount n es = 1)
    (hres : (RunEvents o InitialState es).1.resolved = true) :
    CountResolver n (RunEvents o InitialState es).2 = 1 ∧
    (∀ d ∈ (RunEvents o InitialState es).2,
        d.value = (RunEvents o InitialState es).1.value ∧
        d.did_throw = (RunEvents o InitialState es).1.did_throw) ∧
    (∀ t : Trigger,
        (RunTrigger o (RunEvents o InitialState es).1 t).state.resolved = true ∧
        (RunTrigger o (RunEvents o InitialState es).1 t).state.value
          = (RunEvents o InitialState es).1.value ∧
        (RunTrigger o (RunEvents o InitialState es).1 t).state.did_throw
          = (RunEvents o InitialState es).1.did_throw) := by
  have hinv0 : BridgeInv InitialState := by
    intro h
    simp [InitialState] at h
  have hinv := RunEvents_inv o es InitialState hinv0
  have hcons := RunEvents_conservation o n es InitialState
  have hwait : (RunEvents o InitialState es).1.waiting = [] := hinv hres
  refine ⟨?_, RunEvents_outcomes o es InitialState hinv0, ?_⟩
  · rw [hwait] at hcons
    simpa [InitialState, CountWait, hreg] using hcons
  · intro t
    obtain ⟨dt, cb, heq⟩ := RunTrigger_eq_Save o (RunEvents o InitialState es).1 t
    obtain ⟨h1, h2⟩ := Save_frozen (RunEvents o InitialState es).1 dt cb hres
    exact ⟨by simp [heq, Save_state_resolved], by rw [heq, h1], by rw [heq, h2]⟩

/-- A concrete options value used by witnesses: type `None`, fallback `None`,
promise flag clear. -/
def SampleOptions : TransferableOptions :=
  { type := TransferType.None, fallback := TransferType.None, promise := false }

/-- A concrete event sequence used by the C1 witness: one waiter registers,
the holder is destroyed (abandonment fires), then a late fulfillment
continuation also fires. -/
def SampleEvents : List Event :=
  [Event.register 7, Event.fire Trigger.destructed,
   Event.fire (Trigger.resolvedWith (Value.number 3))]

/-- Closed witness for C1: the concrete run `SampleEvents` satisfies the
hypotheses, and the conclusion follows by the theorem. -/
theorem C1_single_settlement_witness :
    RegisterCount 7 SampleEvents = 1 ∧
    (RunEvents SampleOptions InitialState SampleEvents).1.resolved = true ∧
    (CountResolver 7 (RunEvents SampleOptions InitialState SampleEvents).2 = 1 ∧
      (∀ d ∈ (RunEvents SampleOptions InitialState SampleEvents).2,
        d.value = (RunEvents SampleOptions InitialState SampleEvents).1.value ∧
        d.did_throw = (RunEvents SampleOptions InitialState SampleEvents).1.did_throw) ∧
      (∀ t : Trigger,
        (RunTrigger SampleOptions (RunEvents SampleOptions InitialState SampleEvents).1
            t).state.resolved = true ∧
        (RunTrigger SampleOptions (RunEvents SampleOptions InitialState SampleEvents).1
            t).state.value = (RunEvents SampleOptions InitialState SampleEvents).1.value ∧
        (RunTrigger SampleOptions (RunEvents SampleOptions InitialState SampleEvents).1
            t).state.did_throw
          = (RunEvents SampleOptions InitialState SampleEvents).1.did_throw)) :=
  ⟨by decide, by rfl,
    C1_single_settlement SampleOptions 7 SampleEvents (by decide) (by rfl)⟩

/-- C2: destroying the source-side holder while the shared state is still
unsettled settles it as a rejection carrying the "Promise was abandoned"
error; every waiter registered at that moment is drained and scheduled for
rejection with that error, none is left pending, and a waiter registering
afterwards is rejected immediately with the same error. -/
theorem C2_abandonment (s : TransferablePromiseState) (m : Nat) (h : s.resolved = false) :
    (Destructor s).state.resolved = true ∧
    (Destructor s).state.did_throw = true ∧
    (Destructor s).state.value = some (.externalCopyError "Promise was abandoned") ∧
    (Destructor s).tasks = s.waiting.map (fun r =>
      { resolver := r, value := some (.externalCopyError "Promise was abandoned"),
        did_throw := true }) ∧
    (Destructor s).state.waiting = [] ∧
    TransferIn (Destructor s).state m
      = ((Destructor s).state,
         .settled (some (.externalCopyError "Promise was abandoned")) true) := by
  rcases s with ⟨val, w, dth, res⟩
  simp only at h
  subst h
  simp [Destructor, Save, TransferIn]

/-- Closed witness for C2: a bridge with three registered waiters and an
unsettled state, abandoned, with a late waiter 9. -/
theorem C2_abandonment_witness :
    (TransferablePromiseState.mk none [1, 2, 3] false false).resolved = false ∧
    ((Destructor ⟨none, [1, 2, 3], false, false⟩).state.resolved = true ∧
     (Destructor ⟨none, [1, 2, 3], false, false⟩).state.did_throw = true ∧
     (Destructor ⟨none, [1, 2, 3], false, false⟩).state.value
       = some (.externalCopyError "Promise was abandoned") ∧
     (Destructor ⟨none, [1, 2, 3], false, false⟩).tasks
       = ([1, 2, 3] : List Nat).map (fun r =>
         { resolver := r, value := some (.externalCopyError "Promise was abandoned"),
           did_throw := true }) ∧
     (Destructor ⟨none, [1, 2, 3], false, false⟩).state.waiting = [] ∧
     TransferIn (Destructor ⟨none, [1, 2, 3], false, false⟩).state 9
       = ((Destructor ⟨none, [1, 2, 3], false, false⟩).state,
          .settled (some (.externalCopyError "Promise was abandoned")) true)) :=
  ⟨by rfl, C2_abandonment ⟨none, [1, 2, 3], false, false⟩ 9 (by rfl)⟩

/-- C3: a failure of the settling value's classification never escapes the
settlement procedure.  Generally, `Save` with a throwing callback stores the
externalized error as the settled value, forces the rejection flag, and marks
the state resolved; in particular, when `Resolved` fires with a value the
dispatch cannot transfer, the bridge settles as rejected with the captured
"A non-transferable value was passed" error. -/
theorem C3_settlement_copy_failure (s : TransferablePromiseState) (v : Value)
    (o : TransferableOptions) (e : String) (h : s.resolved = false)
    (h2 : OptionalTransferOutNP v o = none) :
    ((Save s false (.error e)).state.value = some (.externalCopyError e) ∧
     (Save s false (.error e)).state.did_throw = true ∧
     (Save s false (.error e)).state.resolved = true) ∧
    ((RunTrigger o s (.resolvedWith v)).state.resolved = true ∧
     (RunTrigger o s (.resolvedWith v)).state.did_throw = true ∧
     (RunTrigger o s (.resolvedWith v)).state.value
       = some (.externalCopyError "A non-transferable value was passed")) := by
  have hcb : ResolvedCallback v o = .error "A non-transferable value was passed" := by
    simp [ResolvedCallback, TransferOutNP, h2]
  obtain ⟨w1, w2⟩ := Save_writes_error s false e h
  obtain ⟨g1, g2⟩ := Save_writes_error s false "A non-transferable value was passed" h
  refine ⟨⟨w1, w2, Save_state_resolved s false (.error e)⟩, ?_, ?_, ?_⟩
  · simp [RunTrigger, hcb, Save_state_resolved]
  · simpa [RunTrigger, hcb] using g2
  · simpa [RunTrigger, hcb] using g1

/-- Closed witness for C3: a fresh state, a plain object (which the dispatch
with type `None` and fallback `None` cannot transfer), and error text "boom". -/
theorem C3_settlement_copy_failure_witness :
    InitialState.resolved = false ∧
    OptionalTransferOutNP Value.plainObject SampleOptions = none ∧
    (((Save InitialState false (.error "boom")).state.value
        = some (.externalCopyError "boom") ∧
      (Save InitialState false (.error "boom")).state.did_throw = true ∧
      (Save InitialState false (.error "boom")).state.resolved = true) ∧
     ((RunTrigger SampleOptions InitialState (.resolvedWith Value.plainObject)).state.resolved
        = true ∧
      (RunTrigger SampleOptions InitialState
        (.resolvedWith Value.plainObject)).state.did_throw = true ∧
      (RunTrigger SampleOptions InitialState (.resolvedWith Value.plainObject)).state.value
        = some (.externalCopyError "A non-transferable value was passed"))) :=
  ⟨by rfl, by rfl,
    C3_settlement_copy_failure InitialState Value.plainObject SampleOptions "boom"
      (by rfl) (by rfl)⟩

/-- Registering a sequence of waiters on an unresolved state appends them to
the queue in registration order and changes nothing else. -/
theorem RunEvents_registers (o : TransferableOptions) (ws : List Nat) :
    ∀ s : TransferablePromiseState, s.resolved = false →
    (RunEvents o s (ws.map Event.register)).1 = { s with waiting := s.waiting ++ ws } := by
  induction ws with
  | nil => intro s h; rcases s; simp [RunEvents]
  | cons a ws ih =>
    intro s h
    rw [List.map_cons, RunEvents_cons_fst]
    have hstep : (StepEvent o s (Event.register a)).1
        = { s with waiting := s.waiting ++ [a] } := by
      simp [StepEvent, h]
    rw [hstep, ih { s with waiting := s.waiting ++ [a] } (by simpa using h)]
    simp

/-- C7: waiters `W1..Wn` registered in that order on an unsettled bridge are
all queued in registration order; when any settlement trigger then fires, the
whole queue is drained and exactly one `ResolveTask` is constructed and
enqueued per waiter, in registration order. -/
theorem C7_fifo_delivery (o : TransferableOptions) (ws : List Nat) (t : Trigger) :
    (RunEvents o InitialState (ws.map Event.register)).1.waiting = ws ∧
    ((RunTrigger o (RunEvents o InitialState (ws.map Event.register)).1 t).tasks.map
        (fun d => d.resolver)) = ws ∧
    (RunTrigger o (RunEvents o InitialState (ws.map Event.register)).1 t).state.waiting = [] ∧
    (RunTrigger o (RunEvents o InitialState (ws.map Event.register)).1 t).tasks.length
      = ws.length := by
  have hreg := RunEvents_registers o ws InitialState (by rfl)
  have hwait : (RunEvents o InitialState (ws.map Event.register)).1.waiting = ws := by
    rw [hreg]; simp [InitialState]
  obtain ⟨dt, cb, heq⟩ :=
    RunTrigger_eq_Save o (RunEvents o InitialState (ws.map Event.register)).1 t
  have hres := Save_tasks_resolvers (RunEvents o InitialState (ws.map Event.register)).1 dt cb
  rw [hwait] at hres
  refine ⟨hwait, by rw [heq]; exact hres, by rw [heq]; exact Save_state_waiting _ dt cb, ?_⟩
  have := congrArg List.length hres
  simpa [heq] using this

/-- The typed dispatch never produces a `TransferablePromise`. -/
theorem TransferWithType_no_promise (v : Value) (ty : TransferType) (t : Transferable)
    (h : TransferWithType v ty = some t) : t.IsPromiseTransferable = false := by
  cases ty with
  | None => simp [TransferWithType] at h
  | Copy =>
    simp only [TransferWithType, ExternalCopyFull, Option.some.injEq] at h
    rw [← h]; rfl
  | ExternalCopy =>
    simp only [TransferWithType, ExternalCopyFull, Option.some.injEq] at h
    rw [← h]; rfl
  | Reference =>
    simp only [TransferWithType, Option.some.injEq] at h
    rw [← h]; rfl

/-- The primitive fast path never produces a `TransferablePromise`. -/
theorem CopyIfPrimitive_no_promise (v : Value) (t : Transferable)
    (h : CopyIfPrimitive v = some t) : t.IsPromiseTransferable = false := by
  unfold CopyIfPrimitive at h
  split at h
  · rw [← Option.some.inj h]; rfl
  · cases h

/-- The rejection-value normalization never produces a
`TransferablePromise`. -/
theorem CopyIfPrimitiveOrError_no_promise (v : Value) :
    (CopyIfPrimitiveOrError v).IsPromiseTransferable = false := by
  unfold CopyIfPrimitiveOrError
  split <;> rfl

/-- The non-promise dispatch never produces a `TransferablePromise`. -/
theorem OptionalTransferOutNP_no_promise (v : Value) (o : TransferableOptions)
    (t : Transferable) (h : OptionalTransferOutNP v o = some t) :
    t.IsPromiseTransferable = false := by
  unfold OptionalTransferOutNP at h
  cases hty : o.type <;> rw [hty] at h
  case None =>
    cases hu : UnwrapTransferableHandle v with
    | some n =>
      rw [hu] at h
      rw [← Option.some.inj h]; rfl
    | none =>
      rw [hu] at h
      cases hc : CopyIfPrimitive v with
      | some u =>
        rw [hc] at h
        exact (Option.some.inj h) ▸ CopyIfPrimitive_no_promise v u hc
      | none =>
        rw [hc] at h
        exact TransferWithType_no_promise v o.fallback t h
  case Copy => exact TransferWithType_no_promise v .Copy t h
  case ExternalCopy => exact TransferWithType_no_promise v .ExternalCopy t h
  case Reference => exact TransferWithType_no_promise v .Reference t h

/-- The state of an immediately-settled `TransferablePromise` built from a
non-promise value: it is resolved, and it stores either the dispatched
transferable of the value or, when the dispatch fails, the captured
"A non-transferable value was passed" error. -/
theorem ImmediateState_value (v : Value) (o : TransferableOptions) :
    (ImmediateState v o).value
      = some (match OptionalTransferOutNP v o with
              | some u => u
              | none => .externalCopyError "A non-transferable value was passed") ∧
    (ImmediateState v o).resolved = true := by
  cases hnp : OptionalTransferOutNP v o with
  | some u =>
    have hcb : ResolvedCallback v o = .ok u := by
      simp [ResolvedCallback, TransferOutNP, hnp]
    exact ⟨by simp [ImmediateState, RunTrigger, hcb,
        (Save_writes_ok InitialState false u (by rfl)).1],
      by simp [ImmediateState, RunTrigger, Save_state_resolved]⟩
  | none =>
    have hcb : ResolvedCallback v o = .error "A non-transferable value was passed" := by
      simp [ResolvedCallback, TransferOutNP, hnp]
    exact ⟨by simp [ImmediateState, RunTrigger, hcb,
        (Save_writes_error InitialState false "A non-transferable value was passed" (by rfl)).1],
      by simp [ImmediateState, RunTrigger, Save_state_resolved]⟩

/-- The value stored by an immediately-settled bridge is never itself a
`TransferablePromise`. -/
theorem ImmediateState_value_no_promise (v : Value) (o : TransferableOptions)
    (t : Transferable) (h : (ImmediateState v o).value = some t) :
    t.IsPromiseTransferable = false := by
  rw [(ImmediateState_value v o).1] at h
  have ht := Option.some.inj h
  cases hnp : OptionalTransferOutNP v o with
  | some u =>
    rw [hnp] at ht
    exact ht ▸ OptionalTransferOutNP_no_promise v o u hnp
  | none =>
    rw [hnp] at ht
    exact ht ▸ rfl

/-- The state of a bridge attached to an already-rejected promise: settled as
a rejection storing `CopyIfPrimitiveOrError` of the rejection value. -/
theorem AcceptState_rejected_value (v : Value) (o : TransferableOptions) :
    (AcceptState (.promiseRejected v) o).value = some (CopyIfPrimitiveOrError v) ∧
    (AcceptState (.promiseRejected v) o).resolved = true ∧
    (AcceptState (.promiseRejected v) o).did_throw = true := by
  simp [AcceptState, RunTrigger, Save, InitialState]

/-- The value stored by a bridge attached to a promise is never itself a
`TransferablePromise`. -/
theorem AcceptState_value_no_promise (p : Value) (o : TransferableOptions)
    (t : Transferable) (h : (AcceptState p o).value = some t) :
    t.IsPromiseTransferable = false := by
  cases p <;>
    first
      | exact ImmediateState_value_no_promise _ o t h
      | (rw [(AcceptState_rejected_value _ o).1] at h
         exact (Option.some.inj h) ▸ CopyIfPrimitiveOrError_no_promise _)
      | simp [AcceptState, InitialState] at h

/-- C4: with the `promise` option set, `OptionalTransferOut` always produces a
`TransferablePromise` before and instead of any type dispatch (for every
`options.type`): a promise-shaped value gets a source-side holder attached to
it, any other value is wrapped as an immediately-settled promise, in both
cases the holder's options have `promise` forced to `false`, and the settled
value stored inside the bridge is never itself a `TransferablePromise`. -/
theorem C4_promise_option (v : Value) (o : TransferableOptions) (h : o.promise = true) :
    ∃ st : TransferablePromiseState,
      OptionalTransferOut v o = some (Transferable.ofState st) ∧
      (v.IsPromise = true → st = AcceptState v { o with promise := false }) ∧
      (v.IsPromise = false →
        st = ImmediateState v { o with promise := false } ∧ st.resolved = true) ∧
      (∀ t, st.value = some t → t.IsPromiseTransferable = false) := by
  cases hp : v.IsPromise with
  | true =>
    refine ⟨AcceptState v (MakeHolderOptions o), ?_, fun _ => rfl, ?_, ?_⟩
    · simp [OptionalTransferOut, h, hp]
    · intro hc; simp at hc
    · intro t ht; exact AcceptState_value_no_promise v (MakeHolderOptions o) t ht
  | false =>
    refine ⟨ImmediateState v (MakeHolderOptions o), ?_, ?_, ?_, ?_⟩
    · simp [OptionalTransferOut, h, hp]
    · intro hc; simp at hc
    · exact fun _ => ⟨rfl, (ImmediateState_value v (MakeHolderOptions o)).2⟩
    · intro t ht; exact ImmediateState_value_no_promise v (MakeHolderOptions o) t ht

/-- Closed witness for C4: transferring the non-promise value `7` with
`promise` set and type `Reference`. -/
theorem C4_promise_option_witness :
    ({ type := TransferType.Reference, fallback := TransferType.None,
        promise := true } : TransferableOptions).promise = true ∧
    (∃ st : TransferablePromiseState,
      OptionalTransferOut (Value.number 7)
          { type := TransferType.Reference, fallback := TransferType.None, promise := true }
        = some (Transferable.ofState st) ∧
      ((Value.number 7).IsPromise = true →
        st = AcceptState (Value.number 7)
          { type := TransferType.Reference, fallback := TransferType.None,
            promise := false }) ∧
      ((Value.number 7).IsPromise = false →
        st = ImmediateState (Value.number 7)
          { type := TransferType.Reference, fallback := TransferType.None,
            promise := false } ∧ st.resolved = true) ∧
      (∀ t, st.value = some t → t.IsPromiseTransferable = false)) :=
  ⟨by rfl,
    C4_promise_option (Value.number 7)
      { type := TransferType.Reference, fallback := TransferType.None, promise := true }
      (by rfl)⟩

/-- Counterexample to C5: transferring an already-rejected promise of `5` with
`options.type = Reference` and the `promise` option set.  The bridge stores
`CopyIfPrimitiveOrError(5)` — a structural copy — whereas production governed
by `options.kind` would store a `ReferenceHandleTransferable`; the two differ,
so the settled value of a rejection is not produced according to the caller's
kind. -/
theorem C5_counterexample :
    OptionalTransferOut (Value.promiseRejected (Value.number 5))
        { type := TransferType.Reference, fallback := TransferType.None, promise := true }
      = some (Transferable.ofState (AcceptState (Value.promiseRejected (Value.number 5))
          { type := TransferType.Reference, fallback := TransferType.None,
            promise := false })) ∧
    (AcceptState (Value.promiseRejected (Value.number 5))
        { type := TransferType.Reference, fallback := TransferType.None,
          promise := false }).value = some (Transferable.externalCopy (Value.number 5)) ∧
    OptionalTransferOutNP (Value.number 5)
        { type := TransferType.Reference, fallback := TransferType.None, promise := false }
      = some (Transferable.referenceHandleTransferable (Value.number 5)) ∧
    (AcceptState (Value.promiseRejected (Value.number 5))
        { type := TransferType.Reference, fallback := TransferType.None,
          promise := false }).value
      ≠ some (Transferable.referenceHandleTransferable (Value.number 5)) := by
  refine ⟨by rfl, by rfl, by rfl, ?_⟩
  intro hcontra
  rw [(AcceptState_rejected_value (Value.number 5) _).1] at hcontra
  simp [CopyIfPrimitiveOrError, IsPrimitiveOrError] at hcontra

/-- C5 (amended): with the `promise` option set, the settled value stored
inside the bridge is produced according to the caller's `options.kind` when
the originating promise fulfills (via the dispatch with `promise` forced
`false`, capturing a failure as the standard error); when the promise
rejects, the rejection value is normalized by `CopyIfPrimitiveOrError`,
ignoring `options.kind` entirely. -/
theorem C5_amended_settlement_kind (v : Value) (o : TransferableOptions)
    (h : o.promise = true) :
    (AcceptState (Value.promiseFulfilled v) { o with promise := false }).value
      = some (match OptionalTransferOutNP v { o with promise := false } with
              | some u => u
              | none => .externalCopyError "A non-transferable value was passed") ∧
    (AcceptState (Value.promiseRejected v) { o with promise := false }).value
      = some (CopyIfPrimitiveOrError v) ∧
    (∀ o2 : TransferableOptions,
      (AcceptState (Value.promiseRejected v) o2).value = some (CopyIfPrimitiveOrError v)) :=
  ⟨(ImmediateState_value v { o with promise := false }).1,
   (AcceptState_rejected_value v { o with promise := false }).1,
   fun o2 => (AcceptState_rejected_value v o2).1⟩

/-- Closed witness for C5's amended claim, at the counterexample's input. -/
theorem C5_amended_settlement_kind_witness :
    ({ type := TransferType.Reference, fallback := TransferType.None,
        promise := true } : TransferableOptions).promise = true ∧
    ((AcceptState (Value.promiseFulfilled (Value.number 5))
        { type := TransferType.Reference, fallback := TransferType.None,
          promise := false }).value
      = some (match OptionalTransferOutNP (Value.number 5)
                { type := TransferType.Reference, fallback := TransferType.None,
                  promise := false } with
              | some u => u
              | none => .externalCopyError "A non-transferable value was passed") ∧
    (AcceptState (Value.promiseRejected (Value.number 5))
        { type := TransferType.Reference, fallback := TransferType.None,
          promise := false }).value
      = some (CopyIfPrimitiveOrError (Value.number 5)) ∧
    (∀ o2 : TransferableOptions,
      (AcceptState (Value.promiseRejected (Value.number 5)) o2).value
        = some (CopyIfPrimitiveOrError (Value.number 5)))) :=
  ⟨by rfl,
    C5_amended_settlement_kind (Value.number 5)
      { type := TransferType.Reference, fallback := TransferType.None, promise := true }
      (by rfl)⟩

/-- C6: with kind `None` and the `promise` option clear, dispatch proceeds in
order: a value wrapping a native `TransferableHandle` yields that handle's own
transferable; otherwise a fast-path primitive (or structurally-copyable error)
yields its structural copy, for every fallback (so without invoking it);
otherwise the fallback kind is dispatched in place of the kind. -/
theorem C6_unset_dispatch (v : Value) (o : TransferableOptions)
    (h1 : o.promise = false) (h2 : o.type = TransferType.None) :
    (∀ n, v = Value.nativeObject n → OptionalTransferOut v o = some (NativeTransferOut n)) ∧
    (UnwrapTransferableHandle v = none → IsPrimitiveOrError v = true →
      ∀ fb, OptionalTransferOut v { o with fallback := fb }
        = some (Transferable.externalCopy v)) ∧
    (UnwrapTransferableHandle v = none → IsPrimitiveOrError v = false →
      OptionalTransferOut v o = TransferWithType v o.fallback) := by
  refine ⟨?_, ?_, ?_⟩
  · rintro n rfl
    simp [OptionalTransferOut, h1, OptionalTransferOutNP, h2,
      UnwrapTransferableHandle, NativeTransferOut]
  · intro hu hp fb
    simp [OptionalTransferOut, h1, OptionalTransferOutNP, h2, hu, CopyIfPrimitive, hp]
  · intro hu hp
    simp [OptionalTransferOut, h1, OptionalTransferOutNP, h2, hu, CopyIfPrimitive, hp]

/-- Closed witness for C6: the string primitive "hi" under kind `None`. -/
theorem C6_unset_dispatch_witness :
    SampleOptions.promise = false ∧ SampleOptions.type = TransferType.None ∧
    ((∀ n, Value.str "hi" = Value.nativeObject n →
        OptionalTransferOut (Value.str "hi") SampleOptions = some (NativeTransferOut n)) ∧
     (UnwrapTransferableHandle (Value.str "hi") = none →
      IsPrimitiveOrError (Value.str "hi") = true →
      ∀ fb, OptionalTransferOut (Value.str "hi") { SampleOptions with fallback := fb }
        = some (Transferable.externalCopy (Value.str "hi"))) ∧
     (UnwrapTransferableHandle (Value.str "hi") = none →
      IsPrimitiveOrError (Value.str "hi") = false →
      OptionalTransferOut (Value.str "hi") SampleOptions
        = TransferWithType (Value.str "hi") SampleOptions.fallback)) :=
  ⟨by rfl, by rfl, C6_unset_dispatch (Value.str "hi") SampleOptions (by rfl) (by rfl)⟩

/-- C8: for a value with no native transfer capability and outside the fast
path, with kind `None`, fallback `None`, and the `promise` option clear, the
optional entry point yields nothing and the strict entry point throws
`RuntimeTypeError("A non-transferable value was passed")`; in general the
strict form succeeds exactly when the optional form produces a transferable. -/
theorem C8_two_entry_points (v : Value) (o : TransferableOptions)
    (h1 : UnwrapTransferableHandle v = none)
    (h2 : IsPrimitiveOrError v = false)
    (h3 : o.type = TransferType.None)
    (h4 : o.fallback = TransferType.None)
    (h5 : o.promise = false) :
    OptionalTransferOut v o = none ∧
    TransferOut v o = .error "A non-transferable value was passed" ∧
    (∀ (w : Value) (o2 : TransferableOptions) (t : Transferable),
      TransferOut w o2 = .ok t ↔ OptionalTransferOut w o2 = some t) ∧
    (∀ (w : Value) (o2 : TransferableOptions),
      TransferOut w o2 = .error "A non-transferable value was passed"
        ↔ OptionalTransferOut w o2 = none) := by
  have hnone : OptionalTransferOut v o = none := by
    simp [OptionalTransferOut, h5, OptionalTransferOutNP, h3, h1, CopyIfPrimitive, h2,
      TransferWithType, h4]
  refine ⟨hnone, by simp [TransferOut, hnone], ?_, ?_⟩
  · intro w o2 t
    cases hw : OptionalTransferOut w o2 <;> simp [TransferOut, hw]
  · intro w o2
    cases hw : OptionalTransferOut w o2 <;> simp [TransferOut, hw]

/-- Closed witness for C8: a plain object under all-`None` options. -/
theorem C8_two_entry_points_witness :
    UnwrapTransferableHandle Value.plainObject = none ∧
    IsPrimitiveOrError Value.plainObject = false ∧
    SampleOptions.type = TransferType.None ∧
    SampleOptions.fallback = TransferType.None ∧
    SampleOptions.promise = false ∧
    (OptionalTransferOut Value.plainObject SampleOptions = none ∧
     TransferOut Value.plainObject SampleOptions
       = .error "A non-transferable value was passed" ∧
     (∀ (w : Value) (o2 : TransferableOptions) (t : Transferable),
       TransferOut w o2 = .ok t ↔ OptionalTransferOut w o2 = some t) ∧
     (∀ (w : Value) (o2 : TransferableOptions),
       TransferOut w o2 = .error "A non-transferable value was passed"
         ↔ OptionalTransferOut w o2 = none)) :=
  ⟨by rfl, by rfl, by rfl, by rfl, by rfl,
    C8_two_entry_points Value.plainObject SampleOptions
      (by rfl) (by rfl) (by rfl) (by rfl) (by rfl)⟩

/-- C9: options parsing succeeds exactly when at most one of
`copy`/`externalCopy`/`reference` is truthy and fails with the configuration
error exactly when two or more are; on success, `type` is set from whichever
flag is set (left `None` when none is), the fallback is kept, and the
`promise` flag is read independently of the mutual-exclusion check. -/
theorem C9_parse_options (raw : RawTransferOptions) (fb : TransferType) :
    (ParseOptions raw fb
        = .error "Only one of `copy`, `externalCopy`, or `reference` may be set"
      ↔ 2 ≤ NumFlagsSet raw) ∧
    ((∃ o, ParseOptions raw fb = .ok o) ↔ NumFlagsSet raw ≤ 1) ∧
    (∀ o, ParseOptions raw fb = .ok o →
      o.promise = raw.promise ∧ o.fallback = fb ∧
      (raw.copy = true → o.type = TransferType.Copy) ∧
      (raw.copy = false → raw.externalCopy = true → o.type = TransferType.ExternalCopy) ∧
      (raw.copy = false → raw.externalCopy = false → raw.reference = true →
        o.type = TransferType.Reference) ∧
      (raw.copy = false → raw.externalCopy = false → raw.reference = false →
        o.type = TransferType.None)) := by
  obtain ⟨c, e, r, p⟩ := raw
  refine ⟨?_, ?_, ?_⟩
  · cases c <;> cases e <;> cases r <;> simp [ParseOptions, NumFlagsSet]
  · cases c <;> cases e <;> cases r <;> simp [ParseOptions, NumFlagsSet]
  · intro o h
    cases c <;> cases e <;> cases r <;>
      first
        | (simp [ParseOptions] at h
           subst h
           simp)
        | simp [ParseOptions] at h

/-- C10: with the `promise` option set, the strict entry point never raises a
dispatch error synchronously — it always returns a transferable; and whenever
the wrapped value has no valid transfer representation, the failure is routed
through the settlement procedure: the bridge settles as rejected storing the
captured "A non-transferable value was passed" error, and any destination
realm observing the bridge receives an immediately-rejected promise with that
error. -/
theorem C10_promise_no_sync_error (v : Value) (o : TransferableOptions)
    (h : o.promise = true) :
    (∃ t, TransferOut v o = .ok t) ∧
    (∀ w : Value, OptionalTransferOutNP w { o with promise := false } = none →
      (ImmediateState w { o with promise := false }).resolved = true ∧
      (ImmediateState w { o with promise := false }).did_throw = true ∧
      (ImmediateState w { o with promise := false }).value
        = some (.externalCopyError "A non-transferable value was passed") ∧
      (∀ m, TransferIn (ImmediateState w { o with promise := false }) m
        = (ImmediateState w { o with promise := false },
           .settled (some (.externalCopyError "A non-transferable value was passed")) true))) := by
  constructor
  · cases hp : v.IsPromise with
    | true =>
      exact ⟨Transferable.ofState (AcceptState v (MakeHolderOptions o)),
        by simp [TransferOut, OptionalTransferOut, h, hp]⟩
    | false =>
      exact ⟨Transferable.ofState (ImmediateState v (MakeHolderOptions o)),
        by simp [TransferOut, OptionalTransferOut, h, hp]⟩
  · intro w hw
    have hcb : ResolvedCallback w { o with promise := false }
        = .error "A non-transferable value was passed" := by
      simp [ResolvedCallback, TransferOutNP, hw]
    obtain ⟨g1, g2⟩ :=
      Save_writes_error InitialState false "A non-transferable value was passed" (by rfl)
    have hres : (ImmediateState w { o with promise := false }).resolved = true := by
      simp [ImmediateState, RunTrigger, Save_state_resolved]
    have hval : (ImmediateState w { o with promise := false }).value
        = some (.externalCopyError "A non-transferable value was passed") := by
      simp [ImmediateState, RunTrigger, hcb, g1]
    have hthrow : (ImmediateState w { o with promise := false }).did_throw = true := by
      simp [ImmediateState, RunTrigger, hcb, g2]
    refine ⟨hres, hthrow, hval, fun m => ?_⟩
    simp [TransferIn, hres, hval, hthrow]

/-- The options used by the C10 witness: all-`None` kinds with the `promise`
flag set. -/
def SamplePromiseOptions : TransferableOptions :=
  { type := TransferType.None, fallback := TransferType.None, promise := true }

/-- Closed witness for C10: a plain (non-transferable) object wrapped as a
promise under all-`None` kinds. -/
theorem C10_promise_no_sync_error_witness :
    SamplePromiseOptions.promise = true ∧
    ((∃ t, TransferOut Value.plainObject SamplePromiseOptions = .ok t) ∧
     (∀ w : Value,
       OptionalTransferOutNP w { SamplePromiseOptions with promise := false } = none →
       (ImmediateState w { SamplePromiseOptions with promise := false }).resolved = true ∧
       (ImmediateState w { SamplePromiseOptions with promise := false }).did_throw = true ∧
       (ImmediateState w { SamplePromiseOptions with promise := false }).value
         = some (.externalCopyError "A non-transferable value was passed") ∧
       (∀ m, TransferIn (ImmediateState w { SamplePromiseOptions with promise := false }) m
         = (ImmediateState w { SamplePromiseOptions with promise := false },
            .settled (some (.externalCopyError "A non-transferable value was passed"))
              true)))) :=
  ⟨by rfl, C10_promise_no_sync_error Value.plainObject SamplePromiseOptions (by rfl)⟩

/-- Closed instantiation of C7 at three concrete waiters and the abandonment
trigger. -/
theorem C7_fifo_delivery_witness :
    (RunEvents SampleOptions InitialState
        (([4, 5, 6] : List Nat).map Event.register)).1.waiting = [4, 5, 6] ∧
    ((RunTrigger SampleOptions (RunEvents SampleOptions InitialState
        (([4, 5, 6] : List Nat).map Event.register)).1 Trigger.destructed).tasks.map
        (fun d => d.resolver)) = [4, 5, 6] ∧
    (RunTrigger SampleOptions (RunEvents SampleOptions InitialState
        (([4, 5, 6] : List Nat).map Event.register)).1
        Trigger.destructed).state.waiting = [] ∧
    (RunTrigger SampleOptions (RunEvents SampleOptions InitialState
        (([4, 5, 6] : List Nat).map Event.register)).1 Trigger.destructed).tasks.length
      = ([4, 5, 6] : List Nat).length :=
  C7_fifo_delivery SampleOptions [4, 5, 6] Trigger.destructed

/-- Closed instantiation of C9 at a bag with `copy` and `promise` set. -/
theorem C9_parse_options_witness :
    (ParseOptions ⟨true, false, false, true⟩ TransferType.None
        = .error "Only one of `copy`, `externalCopy`, or `reference` may be set"
      ↔ 2 ≤ NumFlagsSet ⟨true, false, false, true⟩) ∧
    ((∃ o, ParseOptions ⟨true, false, false, true⟩ TransferType.None = .ok o)
      ↔ NumFlagsSet ⟨true, false, false, true⟩ ≤ 1) ∧
    (∀ o, ParseOptions ⟨true, false, false, true⟩ TransferType.None = .ok o →
      o.promise = (⟨true, false, false, true⟩ : RawTransferOptions).promise ∧
      o.fallback = TransferType.None ∧
      ((⟨true, false, false, true⟩ : RawTransferOptions).copy = true →
        o.type = TransferType.Copy) ∧
      ((⟨true, false, false, true⟩ : RawTransferOptions).copy = false →
        (⟨true, false, false, true⟩ : RawTransferOptions).externalCopy = true →
        o.type = TransferType.ExternalCopy) ∧
      ((⟨true, false, false, true⟩ : RawTransferOptions).copy = false →
        (⟨true, false, false, true⟩ : RawTransferOptions).externalCopy = false →
        (⟨true, false, false, true⟩ : RawTransferOptions).reference = true →
        o.type = TransferType.Reference) ∧
      ((⟨true, false, false, true⟩ : RawTransferOptions).copy = false →
        (⟨true, false, false, true⟩ : RawTransferOptions).externalCopy = false →
        (⟨true, false, false, true⟩ : RawTransferOptions).reference = false →
        o.type = TransferType.None)) :=
  C9_parse_options ⟨true, false, false, true⟩ TransferType.None
